import Mathlib

/-!
# E-Commerce-Backend: signup, email verification, login, order confirmation

A shallow embedding of `controllers/userController.js` and `routes/userRoutes.js`.

* Request bodies are JSON values (`JVal`); an absent key is `JVal.undefined`.
* The user collection is a list of documents (`Store`).
* Third-party libraries (validator.js, bcryptjs, jsonwebtoken, nodemailer, the
  MongoDB driver) are not part of the repository.  Their pure functions are
  fields of `Lib`; what their calls answer during one request is recorded in
  `Env`.
* A handler returns an `Outcome`: the HTTP response, the store afterwards, the
  `sendMail` calls it made and the tokens it signed, in order.
* The rate limiters mounted in front of the routes are not modelled.
-/

namespace ECommerce

/-! ## Values -/

/-- JSON value of a request body.  A number carries its JavaScript string form.
An object is one produced by `JSON.parse` with ordinary keys (none of them
`toString` or `valueOf`), so that its text in a template is `[object Object]`. -/
inductive JVal where
  | undefined
  | null
  | bool (b : Bool)
  | num (repr : String)
  | str (s : String)
  | arr (items : List JVal)
  | obj (fields : List (String × JVal))

/-- JavaScript error object: the handlers only read `name` and `message`. -/
structure JsError where
  name : String
  message : String
deriving DecidableEq, Repr

/-- Modelled from the spec: the `models/User` schema is not among the sources.
An account is `{ id, name, email, passwordHash, isVerified }` and `isVerified`
starts `false` (spec, section 3). -/
structure Account where
  id : Nat
  name : String
  email : String
  password : String
  isVerified : Bool
deriving DecidableEq, Repr

/-- The user collection, in insertion order. -/
abbrev Store := List Account

/-- Payload handed to `jwt.sign`: `{ name, email }` in signup, `{ id }` in login. -/
inductive Payload where
  | verification (name email : JVal)
  | session (id : Nat)

/-- The part of a decoded token that `verifyEmail` reads: `decoded.email`. -/
structure Decoded where
  email : JVal

/-- Pure functions of the third-party libraries. -/
structure Lib where
  /-- Result of `validator.isEmail(str)`. -/
  isEmail : String → Bool
  /-- Result of `validator.isLength(str, { min })`. -/
  isLength : Nat → String → Bool
  /-- Result of `validator.isFloat(str, { min: 0 })`. -/
  isFloatMin0 : String → Bool
  /-- Result of `validator.normalizeEmail(str)`: a string, or `false`. -/
  normalizeEmail : String → JVal
  /-- Result of `Array.prototype.toString` on the items of an array. -/
  arrayToString : List JVal → String
  /-- Mongoose cast of a value that is not a string to the `String` schema type;
  `none` when the cast is refused. -/
  castOther : JVal → Option String
  /-- Whether the filter `{ email: v }`, for `v` not a string, selects an account. -/
  filterOther : JVal → Account → Bool

/-- What the outside world answers during one request. -/
structure Env where
  /-- Rejection of `User.findOne`, if it rejects. -/
  findOneError : Option JsError
  /-- Rejection of `user.save`, if it rejects. -/
  saveError : Option JsError
  /-- Rejection of the `n`-th `transporter.sendMail` call of the request, if any. -/
  sendMailError : Nat → Option JsError
  /-- Result of `bcrypt.genSalt(10)`. -/
  genSalt : Except JsError String
  /-- Result of `bcrypt.hash(password, salt)` on strings. -/
  hash : String → String → Except JsError String
  /-- Result of `bcrypt.compare(password, hash)` on strings. -/
  compare : String → String → Except JsError Bool
  /-- Result of `jwt.sign(payload, JWT_SECRET, { expiresIn })`; the secret is taken
  to be configured, so that the call returns a token. -/
  jwtSign : Payload → String → String
  /-- Result of `jwt.verify(token, JWT_SECRET)`. -/
  jwtVerify : String → Except JsError Decoded
  /-- The `_id` given to a document created by `new User`. -/
  freshId : Nat
  /-- Text of `process.env.BASE_URL` in a template literal. -/
  baseUrl : String
  /-- Text of `process.env.EMAIL_USER` in a template literal. -/
  emailUser : String
  /-- Value of `process.env.EMAIL_SENDER_NAME`, if set. -/
  senderName : Option String
  /-- Text of `new Date().toLocaleDateString()`. -/
  today : String

/-! ## Responses and effects -/

/-- One entry of `validationResult(req).array()`. -/
structure FieldError where
  path : String
  msg : String
deriving DecidableEq, Repr

/-- The `user` object of a login response. -/
structure UserInfo where
  id : Nat
  name : String
  email : String
deriving DecidableEq, Repr

/-- Response bodies of the four routes. -/
inductive Body where
  /-- Plain text, `res.send(text)`. -/
  | text (s : String)
  /-- The object `{ message }`. -/
  | message (message : String)
  /-- The object `{ message, errors }`. -/
  | validationFailed (message : String) (errors : List FieldError)
  /-- The object `{ message, error }`. -/
  | serverError (message : String) (error : String)
  /-- The object `{ message, token, user }`. -/
  | loginOk (message : String) (token : String) (user : UserInfo)
  /-- The object `{ errors }`. -/
  | errors (errors : List FieldError)
  /-- The object `{ success: true }`. -/
  | success
  /-- The object `{ error, details }`. -/
  | mailError (error : String) (details : String)
deriving DecidableEq, Repr

structure Response where
  status : Nat
  body : Body
deriving DecidableEq, Repr

/-- Argument of one `transporter.sendMail` call. -/
structure Mail where
  sender : String
  recipient : JVal
  subject : String
  html : String

/-- Result of running a handler. -/
structure Outcome where
  response : Response
  store : Store
  /-- The `sendMail` calls made, in order (whether or not they were delivered). -/
  mails : List Mail
  /-- The tokens returned by `jwt.sign`, in order. -/
  issued : List String

/-! ## JavaScript conversions -/

/-- Text of a value inside a template literal, `String(v)`. -/
def jsString (lib : Lib) : JVal → String
  | .undefined => "undefined"
  | .null => "null"
  | .bool true => "true"
  | .bool false => "false"
  | .num r => r
  | .str s => s
  | .arr xs => lib.arrayToString xs
  | .obj _ => "[object Object]"

/-- Property read `v[k]` on a value that is neither `null` nor `undefined`. -/
def getProp (v : JVal) (k : String) : JVal :=
  match v with
  | .obj fs => (fs.lookup k).getD .undefined
  | _ => .undefined

/-! ## The user collection -/

/-- The filter `{ email: v }` applied to one document. -/
def emailFilter (lib : Lib) (v : JVal) (a : Account) : Bool :=
  match v with
  | .str e => a.email == e
  | w => lib.filterOther w a

/-- Query `User.findOne({ email })`. -/
def findOne (lib : Lib) (env : Env) (store : Store) (email : JVal) :
    Except JsError (Option Account) :=
  match env.findOneError with
  | some err => .error err
  | none => .ok (store.find? (emailFilter lib email))

/-- Mongoose cast of a field value to the `String` schema type. -/
def castString (lib : Lib) : JVal → Option String
  | .str s => some s
  | w => lib.castOther w

/-- Update `updateOne({ _id: id }, { $set: { isVerified: true } })`: the first
document with that `_id` is changed. -/
def setVerified (id : Nat) : Store → Store
  | [] => []
  | a :: rest =>
    if a.id = id then { a with isVerified := true } :: rest
    else a :: setVerified id rest

/-- Calls `new User({ name, email, password })` followed by `user.save()`. -/
def saveNew (lib : Lib) (env : Env) (store : Store) (name email : JVal)
    (hashedPassword : String) : Except JsError Store :=
  match env.saveError with
  | some err => .error err
  | none =>
    match castString lib name, castString lib email with
    | some n, some e =>
      .ok (store ++ [{ id := env.freshId, name := n, email := e,
                       password := hashedPassword, isVerified := false }])
    | _, _ => .error ⟨"ValidationError", "User validation failed"⟩

/-- Assignment `user.isVerified = true` followed by `user.save()`. -/
def saveVerified (env : Env) (store : Store) (user : Account) : Except JsError Store :=
  match env.saveError with
  | some err => .error err
  | none => .ok (setVerified user.id store)

/-! ## bcryptjs on request values -/

/-- Call `bcrypt.hash(password, salt)`: a password that is not a string is refused. -/
def bcryptHash (env : Env) (password : JVal) (salt : String) : Except JsError String :=
  match password with
  | .str p => env.hash p salt
  | _ => .error ⟨"Error", "Illegal arguments"⟩

/-- Call `bcrypt.compare(password, user.password)`. -/
def bcryptCompare (env : Env) (password : JVal) (hashed : String) : Except JsError Bool :=
  match password with
  | .str p => env.compare p hashed
  | _ => .error ⟨"Error", "Illegal arguments"⟩

/-! ## express-validator -/

/-- String view of a field value taken by the standard validators and sanitizers. -/
def stringify (lib : Lib) : JVal → String
  | .undefined => ""
  | .null => ""
  | .bool true => "true"
  | .bool false => "false"
  | .num r => r
  | .str s => s
  | .arr xs => lib.arrayToString xs
  | .obj _ => "[object Object]"

/-- The values a standard validator is run on: the items of an array, else the value. -/
def fieldValues : JVal → List JVal
  | .arr xs => xs
  | v => [v]

/-- A standard validator in a chain: one error for every value on which the
validator answers `negated`. -/
def standardValidation (lib : Lib) (path : String) (validator : String → Bool)
    (negated : Bool) (value : JVal) : List FieldError :=
  (fieldValues value).filterMap fun v =>
    if validator (stringify lib v) == negated then some ⟨path, "Invalid value"⟩ else none

/-- A custom validator in a chain: it is run on the whole value. -/
def customValidation (path : String) (validator : JVal → Bool) (value : JVal) :
    List FieldError :=
  if validator value then [] else [⟨path, "Invalid value"⟩]

/-- A standard sanitizer in a chain: applied to every item of an array, else to the value. -/
def sanitization (lib : Lib) (sanitizer : String → JVal) : JVal → JVal
  | .arr xs => .arr (xs.map fun v => sanitizer (stringify lib v))
  | v => sanitizer (stringify lib v)

/-- The validator `isEmpty` of validator.js with its default options. -/
def isEmpty (s : String) : Bool := s.length == 0

/-- The validator behind `isArray({ min })`. -/
def isArrayMin (min : Nat) : JVal → Bool
  | .arr xs => decide (min ≤ xs.length)
  | _ => false

/-! ## controllers/userController.js -/

/-- Body of `POST /signup`. -/
structure SignupBody where
  name : JVal
  email : JVal
  password : JVal

/-- Body of `POST /login`. -/
structure LoginBody where
  email : JVal
  password : JVal

/-- The chains of the signup route: `body("name").isLength({ min: 3 })`,
`body("email").isEmail()`, `body("password").isLength({ min: 6 })`. -/
def signupValidation (lib : Lib) (body : SignupBody) : List FieldError :=
  standardValidation lib "name" (lib.isLength 3) false body.name ++
  standardValidation lib "email" lib.isEmail false body.email ++
  standardValidation lib "password" (lib.isLength 6) false body.password

/-- The verification link built in `signup`. -/
def verifyUrl (env : Env) (token : String) : String :=
  env.baseUrl ++ "/api/user/verify/" ++ token

/-- The verification mail of `signup`. -/
def verificationMail (lib : Lib) (env : Env) (name email : JVal) (token : String) : Mail :=
  { sender := env.emailUser
    recipient := email
    subject := "Verify your email"
    html := "\n        <p>Hello " ++ jsString lib name ++ ",</p>\n" ++
      "        <p>Click below to verify your email:</p>\n" ++
      "        <a href=\"" ++ verifyUrl env token ++ "\">Verify Email</a>\n" ++
      "        <p>Link valid for 1 hour.</p>\n      " }

/-- The `catch` branch of `signup`. -/
def signupCatch (err : JsError) : Response :=
  ⟨500, .serverError "Server error during signup" err.message⟩

/-- Handler `exports.signup`. -/
def signup (lib : Lib) (env : Env) (store : Store) (body : SignupBody) : Outcome :=
  let errors := signupValidation lib body
  if !errors.isEmpty then
    ⟨⟨400, .validationFailed "Validation failed" errors⟩, store, [], []⟩
  else
    match findOne lib env store body.email with
    | .error err => ⟨signupCatch err, store, [], []⟩
    | .ok (some _) => ⟨⟨400, .message "User already exists"⟩, store, [], []⟩
    | .ok none =>
      match env.genSalt with
      | .error err => ⟨signupCatch err, store, [], []⟩
      | .ok salt =>
        match bcryptHash env body.password salt with
        | .error err => ⟨signupCatch err, store, [], []⟩
        | .ok hashedPassword =>
          match saveNew lib env store body.name body.email hashedPassword with
          | .error err => ⟨signupCatch err, store, [], []⟩
          | .ok saved =>
            let token := env.jwtSign (.verification body.name body.email) "1h"
            let mail := verificationMail lib env body.name body.email token
            match env.sendMailError 0 with
            | some err => ⟨signupCatch err, saved, [mail], [token]⟩
            | none => ⟨⟨201, .message "Verification email sent"⟩, saved, [mail], [token]⟩

/-- The `catch` branch of `verifyEmail`. -/
def verifyEmailCatch (err : JsError) : Response :=
  if err.name == "TokenExpiredError" then
    ⟨400, .text "Verification link has expired. Please sign up again."⟩
  else
    ⟨400, .text "Invalid or expired token."⟩

/-- Handler `exports.verifyEmail`; `token` is `req.params.token`. -/
def verifyEmail (lib : Lib) (env : Env) (store : Store) (token : String) : Outcome :=
  match env.jwtVerify token with
  | .error err => ⟨verifyEmailCatch err, store, [], []⟩
  | .ok decoded =>
    match findOne lib env store decoded.email with
    | .error err => ⟨verifyEmailCatch err, store, [], []⟩
    | .ok none => ⟨⟨400, .text "Invalid token"⟩, store, [], []⟩
    | .ok (some user) =>
      if user.isVerified then
        ⟨⟨400, .text "Email already verified"⟩, store, [], []⟩
      else
        match saveVerified env store user with
        | .error err => ⟨verifyEmailCatch err, store, [], []⟩
        | .ok saved =>
          ⟨⟨200, .text "Email verified successfully. You can now log in."⟩, saved, [], []⟩

/-- The `catch` branch of `login`. -/
def loginCatch (err : JsError) : Response :=
  ⟨500, .serverError "Login failed" err.message⟩

/-- Handler `exports.login`. -/
def login (lib : Lib) (env : Env) (store : Store) (body : LoginBody) : Outcome :=
  match findOne lib env store body.email with
  | .error err => ⟨loginCatch err, store, [], []⟩
  | .ok none => ⟨⟨400, .message "Invalid email or email not verified"⟩, store, [], []⟩
  | .ok (some user) =>
    if !user.isVerified then
      ⟨⟨400, .message "Invalid email or email not verified"⟩, store, [], []⟩
    else
      match bcryptCompare env body.password user.password with
      | .error err => ⟨loginCatch err, store, [], []⟩
      | .ok isMatch =>
        if !isMatch then ⟨⟨400, .message "Invalid password"⟩, store, [], []⟩
        else
          let token := env.jwtSign (.session user.id) "1d"
          ⟨⟨200, .loginOk "Login successful" token ⟨user.id, user.name, user.email⟩⟩,
            store, [], [token]⟩

/-! ## A sequence of requests -/

/-- Request to one of the three authentication routes. -/
inductive Request where
  | signup (body : SignupBody)
  | verifyEmail (token : String)
  | login (body : LoginBody)

/-- One request against the store. -/
def handle (lib : Lib) (env : Env) (store : Store) : Request → Outcome
  | .signup body => signup lib env store body
  | .verifyEmail token => verifyEmail lib env store token
  | .login body => login lib env store body

/-- The store after a sequence of requests, each with what the outside world
answered at the time. -/
def runAll (lib : Lib) (store : Store) : List (Env × Request) → Store
  | [] => store
  | (env, req) :: rest => runAll lib (handle lib env store req).store rest

/-! ## routes/userRoutes.js: order confirmation -/

/-- The characters matched by `\\s` in a JavaScript regular expression. -/
def isJsSpace (c : Char) : Bool :=
  let n := c.toNat
  (9 ≤ n && n ≤ 13) || n == 32 || n == 160 || n == 5760 || (8192 ≤ n && n ≤ 8202) ||
    n == 8232 || n == 8233 || n == 8239 || n == 8287 || n == 12288 || n == 65279

/-- The sanitizer `trim` of validator.js without a character set. -/
def jsTrim (s : String) : String :=
  String.mk ((s.toList.dropWhile isJsSpace).reverse.dropWhile isJsSpace).reverse

/-- Replacement of one character by the sanitizer `escape` of validator.js. -/
def escapeChar (c : Char) : List Char :=
  if c == Char.ofNat 38 then "&amp;".toList
  else if c == Char.ofNat 34 then "&quot;".toList
  else if c == Char.ofNat 39 then "&#x27;".toList
  else if c == Char.ofNat 60 then "&lt;".toList
  else if c == Char.ofNat 62 then "&gt;".toList
  else if c == Char.ofNat 47 then "&#x2F;".toList
  else if c == Char.ofNat 92 then "&#x5C;".toList
  else if c == Char.ofNat 96 then "&#96;".toList
  else [c]

/-- The sanitizer `escape` of validator.js. -/
def htmlEscape (s : String) : String :=
  String.mk (s.toList.flatMap escapeChar)

/-- Body of `POST /send-order-confirmation`. -/
structure OrderBody where
  userEmail : JVal
  userName : JVal
  orderId : JVal
  orderItems : JVal
  orderTotal : JVal
  sellerEmail : JVal

/-- Result of the order-confirmation route. -/
structure OrderOutcome where
  response : Response
  /-- The `sendMail` calls made, in order (whether or not they were delivered). -/
  mails : List Mail

/-- The chains of the order-confirmation route, as validators:
`isEmail`, `notEmpty`, `notEmpty`, `isArray({ min: 1 })`, `isFloat({ min: 0 })`. -/
def orderValidation (lib : Lib) (body : OrderBody) : List FieldError :=
  standardValidation lib "userEmail" lib.isEmail false body.userEmail ++
  standardValidation lib "userName" isEmpty true body.userName ++
  standardValidation lib "orderId" isEmpty true body.orderId ++
  customValidation "orderItems" (isArrayMin 1) body.orderItems ++
  standardValidation lib "orderTotal" lib.isFloatMin0 false body.orderTotal

/-- The chains of the order-confirmation route, as sanitizers: `normalizeEmail`
on `userEmail`, and `trim` then `escape` on `userName`, each after the validator
in front of it in its chain. -/
def orderSanitize (lib : Lib) (body : OrderBody) : OrderBody :=
  { body with
    userEmail := sanitization lib lib.normalizeEmail body.userEmail
    userName :=
      sanitization lib (fun s => .str (htmlEscape s))
        (sanitization lib (fun s => .str (jsTrim s)) body.userName) }

/-- One `<li>` of the order mail; reading a property of `null` throws. -/
def itemLine (lib : Lib) : JVal → Except JsError String
  | .null => .error ⟨"TypeError", "Cannot read properties of null"⟩
  | .undefined => .error ⟨"TypeError", "Cannot read properties of undefined"⟩
  | item =>
    .ok ("\n              <li>" ++ jsString lib (getProp item "name") ++ " - " ++
      jsString lib (getProp item "quantity") ++ " × $" ++
      jsString lib (getProp item "price") ++ "</li>\n            ")

/-- The lines of all items joined: `orderItems.map(...)` then `join` with the empty string. -/
def itemLines (lib : Lib) : List JVal → Except JsError String
  | [] => .ok ""
  | item :: rest =>
    match itemLine lib item with
    | .error err => .error err
    | .ok line =>
      match itemLines lib rest with
      | .error err => .error err
      | .ok lines => .ok (line ++ lines)

/-- The template `emailHtml` of the handler. -/
def emailHtml (lib : Lib) (env : Env) (body : OrderBody) : Except JsError String :=
  match body.orderItems with
  | .arr items =>
    match itemLines lib items with
    | .error err => .error err
    | .ok lines =>
      .ok ("\n        <div style=\"font-family: Arial, sans-serif; max-width: 600px; margin: 0 auto;\">\n" ++
        "          <h2 style=\"color: #333;\">Order Confirmation #" ++ jsString lib body.orderId ++ "</h2>\n" ++
        "          <p>Hello " ++ jsString lib body.userName ++ ",</p>\n" ++
        "          <p>Thank you for your order! Here are your order details:</p>\n" ++
        "          \n" ++
        "          <h3 style=\"color: #333;\">Order Summary</h3>\n" ++
        "          <p><strong>Order ID:</strong> " ++ jsString lib body.orderId ++ "</p>\n" ++
        "          <p><strong>Date:</strong> " ++ env.today ++ "</p>\n" ++
        "          <p><strong>Total:</strong> $" ++ jsString lib body.orderTotal ++ "</p>\n" ++
        "          \n" ++
        "          <h4 style=\"color: #333;\">Items Ordered:</h4>\n" ++
        "          <ul>\n" ++
        "            " ++ lines ++ "\n" ++
        "          </ul>\n" ++
        "        </div>\n" ++
        "      ")
  | _ => .error ⟨"TypeError", "orderItems.map is not a function"⟩

/-- The destructuring default `sellerEmail = "anassheik890@gmail.com"`. -/
def sellerEmailOf (body : OrderBody) : JVal :=
  match body.sellerEmail with
  | .undefined => .str "anassheik890@gmail.com"
  | v => v

/-- The confirmation mail to the buyer. -/
def buyerMail (lib : Lib) (env : Env) (body : OrderBody) (html : String) : Mail :=
  { sender :=
      "\"" ++ (match env.senderName with
        | some n => if n = "" then "Your Store" else n
        | none => "Your Store") ++ "\" <" ++ env.emailUser ++ ">"
    recipient := body.userEmail
    subject := "Order Confirmation #" ++ jsString lib body.orderId
    html := html }

/-- The notification mail to the seller. -/
def sellerMail (lib : Lib) (env : Env) (body : OrderBody) (html : String) : Mail :=
  { sender :=
      "\"" ++ (match env.senderName with
        | some n => n
        | none => "undefined") ++ "\" <" ++ env.emailUser ++ ">"
    recipient := sellerEmailOf body
    subject := "New Order Received #" ++ jsString lib body.orderId
    html :=
      "\n          <div style=\"font-family: Arial, sans-serif; max-width: 600px; margin: 0 auto;\">\n" ++
      "            <h2 style=\"color: #333;\">New Order Notification</h2>\n" ++
      "            <p>You have received a new order from " ++ jsString lib body.userName ++
        " (" ++ jsString lib body.userEmail ++ ")</p>\n" ++
      "            " ++ html ++ "\n" ++
      "          </div>\n" ++
      "        " }

/-- The `catch` branch of the order-confirmation handler. -/
def orderCatch (err : JsError) : Response :=
  ⟨500, .mailError "Failed to send email" err.message⟩

/-- Route `POST /send-order-confirmation`: the validation chains, then the handler. -/
def sendOrderConfirmation (lib : Lib) (env : Env) (raw : OrderBody) : OrderOutcome :=
  let errors := orderValidation lib raw
  let body := orderSanitize lib raw
  if !errors.isEmpty then
    ⟨⟨400, .errors errors⟩, []⟩
  else
    match emailHtml lib env body with
    | .error err => ⟨orderCatch err, []⟩
    | .ok html =>
      let first := buyerMail lib env body html
      match env.sendMailError 0 with
      | some err => ⟨orderCatch err, [first]⟩
      | none =>
        let second := sellerMail lib env body html
        match env.sendMailError 1 with
        | some err => ⟨orderCatch err, [first, second]⟩
        | none => ⟨⟨200, .success⟩, [first, second]⟩

/-! ## Notions used in the statements -/

/-- The account of an email address: the first document with that email, which
is what `findOne` returns for a string. -/
def accountFor (store : Store) (e : String) : Option Account :=
  store.find? (fun a => a.email == e)

/-- A library instance for the worked examples.  It agrees with validator.js on
the strings the examples use. -/
def sampleLib : Lib :=
  { isEmail := fun s => s.toList.contains (Char.ofNat 64)
    isLength := fun min s => decide (min ≤ s.length)
    isFloatMin0 := fun s => !s.toList.isEmpty && s.toList.all Char.isDigit
    normalizeEmail := fun s => .str s
    arrayToString := fun _ => ""
    castOther := fun _ => none
    filterOther := fun _ _ => false }

/-- An outside world for the worked examples in which every call succeeds. -/
def sampleEnv : Env :=
  { findOneError := none
    saveError := none
    sendMailError := fun _ => none
    genSalt := .ok "salt"
    hash := fun p salt => .ok (salt ++ "$" ++ p)
    compare := fun p h => .ok (h == "salt$" ++ p)
    jwtSign := fun _ ttl => "token-" ++ ttl
    jwtVerify := fun t =>
      if t = "token-1h" then .ok ⟨.str "ann@x.com"⟩
      else if t = "token-old" then .error ⟨"TokenExpiredError", "jwt expired"⟩
      else .error ⟨"JsonWebTokenError", "jwt malformed"⟩
    freshId := 1
    baseUrl := "http://localhost:5000"
    emailUser := "shop@x.com"
    senderName := none
    today := "1/1/2025" }

/-- The account of Ann before verification. -/
def annUnverified : Account :=
  { id := 1, name := "Ann", email := "ann@x.com", password := "salt$secret1",
    isVerified := false }

/-- The account of Ann after verification. -/
def annVerified : Account := { annUnverified with isVerified := true }

/-- An outside world in which the store lookup rejects. -/
def lookupDown : Env :=
  { sampleEnv with findOneError := some ⟨"MongoNetworkError", "connection lost"⟩ }

/-- An outside world in which saving a document rejects. -/
def saveDown : Env :=
  { sampleEnv with saveError := some ⟨"MongoNetworkError", "connection lost"⟩ }

/-- An outside world in which the mail transport rejects. -/
def mailDown : Env :=
  { sampleEnv with sendMailError := fun _ => some ⟨"Error", "connection refused"⟩ }

/-- An order whose `userName` is three blanks and whose other fields are valid. -/
def blankNameOrder : OrderBody :=
  { userEmail := .str "ann@x.com"
    userName := .str "   "
    orderId := .str "A1"
    orderItems := .arr [.obj [("name", .str "Pen"), ("quantity", .num "2"), ("price", .num "3")]]
    orderTotal := .num "6"
    sellerEmail := .undefined }

/-- The signup request of Ann. -/
def annSignup : SignupBody :=
  { name := .str "Ann", email := .str "ann@x.com", password := .str "secret1" }

/-! ## Lemmas on the collection -/

theorem emailFilter_str (lib : Lib) (e : String) :
    emailFilter lib (.str e) = fun a => a.email == e := by
  funext a
  rfl

theorem findOne_str (lib : Lib) (env : Env) (store : Store) (e : String)
    (h : env.findOneError = none) :
    findOne lib env store (.str e) = .ok (accountFor store e) := by
  simp [findOne, h, emailFilter_str, accountFor]

/-! ## Login -/

/-- C1: for string email and password, when the store lookup answers, login
responds 200 exactly when the account of that email exists, is verified and the
hasher reports a match, and then the body carries the token signed over the
account id with expiry "1d" and the user id, name and email; with no account,
an unverified account or a mismatch it responds 400 and signs no token. -/
theorem login_contract (lib : Lib) (env : Env) (store : Store) (e p : String)
    (hfind : env.findOneError = none) :
    ((login lib env store ⟨.str e, .str p⟩).response.status = 200 ↔
        ∃ u, accountFor store e = some u ∧ u.isVerified = true ∧
          env.compare p u.password = .ok true) ∧
    (∀ u, accountFor store e = some u → u.isVerified = true →
        env.compare p u.password = .ok true →
        (login lib env store ⟨.str e, .str p⟩).response =
          ⟨200, .loginOk "Login successful" (env.jwtSign (.session u.id) "1d")
            ⟨u.id, u.name, u.email⟩⟩ ∧
        (login lib env store ⟨.str e, .str p⟩).issued = [env.jwtSign (.session u.id) "1d"]) ∧
    (accountFor store e = none →
        (login lib env store ⟨.str e, .str p⟩).response.status = 400 ∧
        (login lib env store ⟨.str e, .str p⟩).issued = []) ∧
    (∀ u, accountFor store e = some u → u.isVerified = false →
        (login lib env store ⟨.str e, .str p⟩).response.status = 400 ∧
        (login lib env store ⟨.str e, .str p⟩).issued = []) ∧
    (∀ u, accountFor store e = some u → u.isVerified = true →
        env.compare p u.password = .ok false →
        (login lib env store ⟨.str e, .str p⟩).response.status = 400 ∧
        (login lib env store ⟨.str e, .str p⟩).issued = []) := by
  simp only [login, findOne_str lib env store e hfind, bcryptCompare]
  cases hacc : accountFor store e with
  | none => simp
  | some u =>
    cases hv : u.isVerified with
    | false => simp [hv]
    | true =>
      cases hc : env.compare p u.password with
      | error err => simp [hv, hc, loginCatch]
      | ok b => cases b <;> simp [hv, hc]

/-! ## Lemmas on `setVerified` and the handlers' effect on the store -/

theorem accountFor_cons (a : Account) (rest : Store) (e : String) :
    accountFor (a :: rest) e = if a.email = e then some a else accountFor rest e := by
  by_cases h : a.email = e <;> simp [accountFor, List.find?_cons, h]

theorem accountFor_mem {store : Store} {e : String} {u : Account}
    (h : accountFor store e = some u) : u ∈ store ∧ u.email = e := by
  constructor
  · exact List.mem_of_find?_eq_some h
  · have := List.find?_some h
    simpa using this

theorem accountFor_append_of_some {store : Store} {e : String} {u : Account}
    (h : accountFor store e = some u) (more : Store) :
    accountFor (store ++ more) e = some u := by
  unfold accountFor at h ⊢
  simp [List.find?_append, h]

/-- A verified account that is the account of its email stays so under `setVerified`. -/
theorem accountFor_setVerified_of_verified (k : Nat) (e : String) (u : Account) :
    ∀ store : Store, accountFor store e = some u → u.isVerified = true →
      accountFor (setVerified k store) e = some u := by
  intro store
  induction store with
  | nil => intro h; simp [accountFor] at h
  | cons a rest ih =>
    intro h hv
    rw [accountFor_cons] at h
    by_cases hk : a.id = k
    · simp only [setVerified, hk, if_true]
      rw [accountFor_cons]
      by_cases he : a.email = e
      · simp only [he, if_true] at h ⊢
        injection h with h
        subst h
        cases a
        simp_all
      · simp only [he, if_false] at h ⊢
        exact h
    · simp only [setVerified, hk, if_false]
      rw [accountFor_cons]
      by_cases he : a.email = e
      · simp only [he, if_true] at h ⊢
        exact h
      · simp only [he, if_false] at h ⊢
        exact ih h hv

/-- With distinct ids, `setVerified` on the id of the account of `e` changes that
document and no other. -/
theorem setVerified_accountFor (e : String) (u : Account) :
    ∀ store : Store, (store.map (fun a => a.id)).Nodup → accountFor store e = some u →
      ∃ before after, store = before ++ u :: after ∧
        (∀ a ∈ before, a.email ≠ e) ∧
        setVerified u.id store = before ++ { u with isVerified := true } :: after := by
  intro store
  induction store with
  | nil => intro _ h; simp [accountFor] at h
  | cons a rest ih =>
    intro hnd h
    rw [accountFor_cons] at h
    by_cases he : a.email = e
    · simp only [he, if_true] at h
      injection h with h
      subst h
      exact ⟨[], rest, rfl, by simp, by simp [setVerified]⟩
    · simp only [he, if_false] at h
      have hmem := (accountFor_mem h).1
      simp only [List.map_cons, List.nodup_cons, List.mem_map, not_exists, not_and] at hnd
      have hid : a.id ≠ u.id := fun hEq => hnd.1 u hmem hEq.symm
      obtain ⟨before, after, hs, hb, hset⟩ := ih hnd.2 h
      refine ⟨a :: before, after, by simp [hs], ?_, ?_⟩
      · intro b hbmem
        rcases List.mem_cons.1 hbmem with hb1 | hb1
        · subst hb1; exact he
        · exact hb b hb1
      · simp [setVerified, hid, hset]

theorem accountFor_split (e : String) (u : Account) (before after : Store)
    (hb : ∀ a ∈ before, a.email ≠ e) (hu : u.email = e) :
    accountFor (before ++ u :: after) e = some u := by
  induction before with
  | nil => simp [accountFor_cons, hu]
  | cons a rest ih =>
    have ha : a.email ≠ e := hb a (List.mem_cons_self _ _)
    simp only [List.cons_append, accountFor_cons, ha, if_false]
    exact ih (fun b hbm => hb b (List.mem_cons_of_mem _ hbm))

/-- What a request can do to the store: nothing, append one unverified
document, or mark one document verified. -/
theorem handle_store (lib : Lib) (env : Env) (store : Store) (req : Request) :
    (handle lib env store req).store = store ∨
    (∃ a : Account, a.isVerified = false ∧ (handle lib env store req).store = store ++ [a]) ∨
    (∃ k, (handle lib env store req).store = setVerified k store) := by
  cases req with
  | signup body =>
    simp only [handle, signup]
    split
    · exact Or.inl rfl
    · split
      · exact Or.inl rfl
      · exact Or.inl rfl
      · split
        · exact Or.inl rfl
        · split
          · exact Or.inl rfl
          · split
            · exact Or.inl rfl
            · rename_i saved hsave
              have hsaved : ∃ a : Account, a.isVerified = false ∧ saved = store ++ [a] := by
                unfold saveNew at hsave
                split at hsave
                · cases hsave
                · split at hsave
                  · injection hsave with hsave
                    exact ⟨_, rfl, hsave.symm⟩
                  · cases hsave
              split <;> exact Or.inr (Or.inl hsaved)
  | verifyEmail token =>
    simp only [handle, verifyEmail]
    split
    · exact Or.inl rfl
    · split
      · exact Or.inl rfl
      · exact Or.inl rfl
      · split
        · exact Or.inl rfl
        · split
          · exact Or.inl rfl
          · rename_i saved hsave
            unfold saveVerified at hsave
            split at hsave
            · cases hsave
            · injection hsave with hsave
              exact Or.inr (Or.inr ⟨_, hsave.symm⟩)
  | login body =>
    simp only [handle, login]
    split
    · exact Or.inl rfl
    · exact Or.inl rfl
    · split
      · exact Or.inl rfl
      · split
        · exact Or.inl rfl
        · split <;> exact Or.inl rfl

theorem getElem?_setVerified_of_verified (k : Nat) (u : Account) :
    ∀ (store : Store) (i : Nat), store[i]? = some u → u.isVerified = true →
      (setVerified k store)[i]? = some u := by
  intro store
  induction store with
  | nil => intro i h; simp at h
  | cons a rest ih =>
    intro i h hv
    by_cases hk : a.id = k
    · simp only [setVerified, hk, if_true]
      cases i with
      | zero =>
        simp only [List.getElem?_cons_zero, Option.some.injEq] at h ⊢
        subst h
        cases a
        simp_all
      | succ j => simpa using h
    · simp only [setVerified, hk, if_false]
      cases i with
      | zero => simpa using h
      | succ j =>
        simp only [List.getElem?_cons_succ] at h ⊢
        exact ih j h hv

theorem getElem?_handle_of_verified (lib : Lib) (env : Env) (store : Store) (req : Request)
    (i : Nat) (u : Account) (h : store[i]? = some u) (hv : u.isVerified = true) :
    (handle lib env store req).store[i]? = some u := by
  rcases handle_store lib env store req with hs | ⟨a, _, hs⟩ | ⟨k, hs⟩
  · rw [hs]; exact h
  · rw [hs]
    have hi : i < store.length := by
      by_contra hcon
      rw [List.getElem?_eq_none (Nat.le_of_not_lt hcon)] at h
      cases h
    rw [List.getElem?_append_left hi]
    exact h
  · rw [hs]
    exact getElem?_setVerified_of_verified k u store i h hv

theorem accountFor_handle_of_verified (lib : Lib) (env : Env) (store : Store) (req : Request)
    (e : String) (u : Account) (h : accountFor store e = some u) (hv : u.isVerified = true) :
    accountFor (handle lib env store req).store e = some u := by
  rcases handle_store lib env store req with hs | ⟨a, _, hs⟩ | ⟨k, hs⟩
  · rw [hs]; exact h
  · rw [hs]; exact accountFor_append_of_some h _
  · rw [hs]; exact accountFor_setVerified_of_verified k e u store h hv

theorem accountFor_runAll_of_verified (lib : Lib) (e : String) (u : Account)
    (hv : u.isVerified = true) :
    ∀ (reqs : List (Env × Request)) (store : Store), accountFor store e = some u →
      accountFor (runAll lib store reqs) e = some u := by
  intro reqs
  induction reqs with
  | nil => intro store h; exact h
  | cons r rest ih =>
    intro store h
    obtain ⟨env, req⟩ := r
    exact ih _ (accountFor_handle_of_verified lib env store req e u h hv)

/-! ## Email verification -/

theorem verifyEmail_of_verified (lib : Lib) (env : Env) (store : Store) (e token : String)
    (v : Account) (decoded : Decoded)
    (hacc : accountFor store e = some v) (hv : v.isVerified = true)
    (htok : env.jwtVerify token = .ok decoded) (hmail : decoded.email = .str e)
    (hfind : env.findOneError = none) :
    (verifyEmail lib env store token).response = ⟨400, .text "Email already verified"⟩ ∧
    (verifyEmail lib env store token).store = store := by
  simp [verifyEmail, htok, hmail, findOne_str lib env store e hfind, hacc, hv]

/-- C2: in a store with distinct ids whose account of `e` is unverified, when
the store calls answer, a token redeemed to claims with email `e` marks exactly
that document verified and is answered 200; after that, and after any further
requests, every token redeemed to claims with email `e` is answered 400
"Email already verified" and the store stays as it is. -/
theorem verifyEmail_once (lib : Lib) (env : Env) (store : Store) (e token : String)
    (u : Account) (decoded : Decoded)
    (hids : (store.map (fun a => a.id)).Nodup)
    (hacc : accountFor store e = some u) (hunv : u.isVerified = false)
    (htok : env.jwtVerify token = .ok decoded) (hmail : decoded.email = .str e)
    (hfind : env.findOneError = none) (hsave : env.saveError = none) :
    (verifyEmail lib env store token).response =
        ⟨200, .text "Email verified successfully. You can now log in."⟩ ∧
    (∃ before after, store = before ++ u :: after ∧
        (verifyEmail lib env store token).store =
          before ++ { u with isVerified := true } :: after) ∧
    accountFor (verifyEmail lib env store token).store e = some { u with isVerified := true } ∧
    (∀ (later : List (Env × Request)) (env2 : Env) (token2 : String) (decoded2 : Decoded),
        env2.jwtVerify token2 = .ok decoded2 → decoded2.email = .str e →
        env2.findOneError = none →
        (verifyEmail lib env2 (runAll lib (verifyEmail lib env store token).store later)
            token2).response = ⟨400, .text "Email already verified"⟩ ∧
        (verifyEmail lib env2 (runAll lib (verifyEmail lib env store token).store later)
            token2).store = runAll lib (verifyEmail lib env store token).store later) := by
  obtain ⟨before, after, hsplit, hbefore, hset⟩ := setVerified_accountFor e u store hids hacc
  have hstore : (verifyEmail lib env store token).store =
      before ++ { u with isVerified := true } :: after := by
    simp [verifyEmail, htok, hmail, findOne_str lib env store e hfind, hacc, hunv,
      saveVerified, hsave, hset]
  have hnow : accountFor (verifyEmail lib env store token).store e =
      some { u with isVerified := true } := by
    rw [hstore]
    exact accountFor_split e _ before after hbefore (accountFor_mem hacc).2
  refine ⟨?_, ⟨before, after, hsplit, hstore⟩, hnow, ?_⟩
  · simp [verifyEmail, htok, hmail, findOne_str lib env store e hfind, hacc, hunv,
      saveVerified, hsave]
  · intro later env2 token2 decoded2 htok2 hmail2 hfind2
    exact verifyEmail_of_verified lib env2 _ e token2 _ decoded2
      (accountFor_runAll_of_verified lib e { u with isVerified := true } rfl later _ hnow)
      rfl htok2 hmail2 hfind2

/-- C5: whatever the store holds, a token that `jwt.verify` rejects with
`TokenExpiredError` is answered 400 "Verification link has expired. Please sign
up again."; the store is left as it is, nothing is sent or signed, and the
response is the same for every other store and every answer of the store calls. -/
theorem verifyEmail_expired (lib : Lib) (env : Env) (store : Store) (token : String)
    (err : JsError) (hexp : env.jwtVerify token = .error err)
    (hname : err.name = "TokenExpiredError") :
    (verifyEmail lib env store token).response =
        ⟨400, .text "Verification link has expired. Please sign up again."⟩ ∧
    (verifyEmail lib env store token).store = store ∧
    (verifyEmail lib env store token).mails = [] ∧
    (verifyEmail lib env store token).issued = [] ∧
    (∀ (store2 : Store) (findErr saveErr : Option JsError),
        (verifyEmail lib { env with findOneError := findErr, saveError := saveErr }
            store2 token).response =
          (verifyEmail lib env store token).response) := by
  simp [verifyEmail, hexp, verifyEmailCatch, hname]

/-! ## The verified flag over time -/

/-- C4: over any sequence of signup, verifyEmail and login requests, whatever
the outside world answers, a document that is verified stays in its place
unchanged, so its `isVerified` is `true` after every later request. -/
theorem isVerified_stays (lib : Lib) (reqs : List (Env × Request)) :
    ∀ (store : Store) (i : Nat) (u : Account), store[i]? = some u → u.isVerified = true →
      (runAll lib store reqs)[i]? = some u := by
  induction reqs with
  | nil => intro store i u h _; exact h
  | cons r rest ih =>
    intro store i u h hv
    obtain ⟨env, req⟩ := r
    exact ih _ i u (getElem?_handle_of_verified lib env store req i u h hv) hv

/-! ## Signup -/

theorem signupValidation_str (lib : Lib) (n e p : String)
    (hn : lib.isLength 3 n = true) (he : lib.isEmail e = true)
    (hp : lib.isLength 6 p = true) :
    signupValidation lib ⟨.str n, .str e, .str p⟩ = [] := by
  simp [signupValidation, standardValidation, fieldValues, stringify, hn, he, hp]

/-- C3: a signup whose name, email and password are strings passing the three
validators, with no account of that email, when the hasher, the store and the
mailer do not fail, appends exactly one document for that email with
`isVerified = false` and the hasher output as its password, makes exactly one
`sendMail` call, to that email, whose body contains the verification link
ending in the token signed over the name and email with expiry "1h", and
responds 201. -/
theorem signup_success (lib : Lib) (env : Env) (store : Store) (n e p salt hashed : String)
    (hn : lib.isLength 3 n = true) (he : lib.isEmail e = true)
    (hp : lib.isLength 6 p = true)
    (hfresh : accountFor store e = none)
    (hfind : env.findOneError = none) (hsave : env.saveError = none)
    (hsalt : env.genSalt = .ok salt) (hhash : env.hash p salt = .ok hashed)
    (hsend : env.sendMailError 0 = none) :
    (signup lib env store ⟨.str n, .str e, .str p⟩).response =
        ⟨201, .message "Verification email sent"⟩ ∧
    (signup lib env store ⟨.str n, .str e, .str p⟩).store =
        store ++ [{ id := env.freshId, name := n, email := e, password := hashed,
                    isVerified := false }] ∧
    (signup lib env store ⟨.str n, .str e, .str p⟩).issued =
        [env.jwtSign (.verification (.str n) (.str e)) "1h"] ∧
    (∃ m : Mail, (signup lib env store ⟨.str n, .str e, .str p⟩).mails = [m] ∧
        m.recipient = .str e ∧
        ∃ pre post, m.html = pre ++ (env.baseUrl ++ "/api/user/verify/" ++
          env.jwtSign (.verification (.str n) (.str e)) "1h") ++ post) := by
  have hval := signupValidation_str lib n e p hn he hp
  refine ⟨?_, ?_, ?_, ?_⟩
  · simp [signup, hval, findOne_str lib env store e hfind, hfresh, hsalt, bcryptHash, hhash,
      saveNew, hsave, castString, hsend]
  · simp [signup, hval, findOne_str lib env store e hfind, hfresh, hsalt, bcryptHash, hhash,
      saveNew, hsave, castString, hsend]
  · simp [signup, hval, findOne_str lib env store e hfind, hfresh, hsalt, bcryptHash, hhash,
      saveNew, hsave, castString, hsend]
  · refine ⟨verificationMail lib env (.str n) (.str e)
      (env.jwtSign (.verification (.str n) (.str e)) "1h"), ?_, rfl, ?_⟩
    · simp [signup, hval, findOne_str lib env store e hfind, hfresh, hsalt, bcryptHash, hhash,
        saveNew, hsave, castString, hsend]
    · refine ⟨"\n        <p>Hello " ++ jsString lib (.str n) ++ ",</p>\n" ++
          "        <p>Click below to verify your email:</p>\n" ++
          "        <a href=\"",
        "\">Verify Email</a>\n" ++ "        <p>Link valid for 1 hour.</p>\n      ", ?_⟩
      simp [verificationMail, verifyUrl, String.append_assoc]

/-- C6: a signup answered 400 leaves the store as it is and makes no `sendMail`
call; the status is 400 exactly when a validator reports an error or, with none
reported, the lookup returns an account; and in that second case the body is
the message "User already exists". -/
theorem signup_rejected (lib : Lib) (env : Env) (store : Store) (body : SignupBody) :
    ((signup lib env store body).response.status = 400 →
        (signup lib env store body).store = store ∧ (signup lib env store body).mails = []) ∧
    ((signup lib env store body).response.status = 400 ↔
        (signupValidation lib body ≠ [] ∨
          ∃ u, findOne lib env store body.email = .ok (some u))) ∧
    (signupValidation lib body = [] →
        ∀ u, findOne lib env store body.email = .ok (some u) →
          (signup lib env store body).response = ⟨400, .message "User already exists"⟩) := by
  refine ⟨?_, ?_, ?_⟩
  · by_cases hv : signupValidation lib body = []
    · unfold signup
      simp only [hv, List.isEmpty_nil, Bool.not_true, Bool.false_eq_true, if_false]
      cases findOne lib env store body.email with
      | error err => simp [signupCatch]
      | ok found =>
        cases found with
        | some u => simp
        | none =>
          dsimp only
          cases env.genSalt with
          | error err => simp [signupCatch]
          | ok salt =>
            dsimp only
            cases bcryptHash env body.password salt with
            | error err => simp [signupCatch]
            | ok hashed =>
              dsimp only
              cases saveNew lib env store body.name body.email hashed with
              | error err => simp [signupCatch]
              | ok saved => cases env.sendMailError 0 <;> simp [signupCatch]
    · simp [signup, hv]
  · by_cases hv : signupValidation lib body = []
    · unfold signup
      simp only [hv, List.isEmpty_nil, Bool.not_true, Bool.false_eq_true, if_false]
      cases findOne lib env store body.email with
      | error err => simp [signupCatch]
      | ok found =>
        cases found with
        | some u => simp
        | none =>
          dsimp only
          cases env.genSalt with
          | error err => simp [signupCatch]
          | ok salt =>
            dsimp only
            cases bcryptHash env body.password salt with
            | error err => simp [signupCatch]
            | ok hashed =>
              dsimp only
              cases saveNew lib env store body.name body.email hashed with
              | error err => simp [signupCatch]
              | ok saved => cases env.sendMailError 0 <;> simp [signupCatch]
    · simp [signup, hv]
  · intro hv u hf
    simp [signup, hv, hf]

/-- C7: when a valid signup with a fresh email is saved and the `sendMail` call
then rejects, the response is 500, the store keeps the new unverified document,
and a later valid signup with the same email, when the lookup answers, is
answered 400 "User already exists" and changes nothing. -/
theorem signup_mail_failure (lib : Lib) (env : Env) (store : Store)
    (n e p salt hashed : String) (err : JsError)
    (hn : lib.isLength 3 n = true) (he : lib.isEmail e = true)
    (hp : lib.isLength 6 p = true)
    (hfresh : accountFor store e = none)
    (hfind : env.findOneError = none) (hsave : env.saveError = none)
    (hsalt : env.genSalt = .ok salt) (hhash : env.hash p salt = .ok hashed)
    (hsend : env.sendMailError 0 = some err) :
    (signup lib env store ⟨.str n, .str e, .str p⟩).response =
        ⟨500, .serverError "Server error during signup" err.message⟩ ∧
    (signup lib env store ⟨.str n, .str e, .str p⟩).store =
        store ++ [{ id := env.freshId, name := n, email := e, password := hashed,
                    isVerified := false }] ∧
    (∀ (env2 : Env) (again : SignupBody), again.email = .str e →
        signupValidation lib again = [] → env2.findOneError = none →
        (signup lib env2 (signup lib env store ⟨.str n, .str e, .str p⟩).store again).response =
          ⟨400, .message "User already exists"⟩ ∧
        (signup lib env2 (signup lib env store ⟨.str n, .str e, .str p⟩).store again).store =
          (signup lib env store ⟨.str n, .str e, .str p⟩).store ∧
        (signup lib env2 (signup lib env store ⟨.str n, .str e, .str p⟩).store again).mails =
          []) := by
  have hval := signupValidation_str lib n e p hn he hp
  have hstore : (signup lib env store ⟨.str n, .str e, .str p⟩).store =
      store ++ [{ id := env.freshId, name := n, email := e, password := hashed,
                  isVerified := false }] := by
    simp [signup, hval, findOne_str lib env store e hfind, hfresh, hsalt, bcryptHash, hhash,
      saveNew, hsave, castString, hsend]
  refine ⟨?_, hstore, ?_⟩
  · simp [signup, hval, findOne_str lib env store e hfind, hfresh, hsalt, bcryptHash, hhash,
      saveNew, hsave, castString, hsend, signupCatch]
  · intro env2 again hemail hval2 hfind2
    rw [hstore]
    have hacc : accountFor (store ++ [⟨env.freshId, n, e, hashed, false⟩]) e =
        some ⟨env.freshId, n, e, hashed, false⟩ := by
      unfold accountFor at hfresh ⊢
      simp [List.find?_append, hfresh]
    simp [signup, hval2, hemail, findOne_str lib env2 _ e hfind2, hacc]

/-! ## Order confirmation -/

/-- C9: when `orderItems` is the empty array or is not an array, whatever the
other fields are, the route responds 400 with the list of validation errors,
which is not empty, and makes no `sendMail` call. -/
theorem order_without_items (lib : Lib) (env : Env) (body : OrderBody)
    (h : body.orderItems = .arr [] ∨ ∀ xs, body.orderItems ≠ .arr xs) :
    (sendOrderConfirmation lib env body).response =
        ⟨400, .errors (orderValidation lib body)⟩ ∧
    orderValidation lib body ≠ [] ∧
    (⟨"orderItems", "Invalid value"⟩ : FieldError) ∈ orderValidation lib body ∧
    (sendOrderConfirmation lib env body).mails = [] := by
  have hitems : isArrayMin 1 body.orderItems = false := by
    rcases h with h | h
    · simp [h, isArrayMin]
    · cases hi : body.orderItems with
      | arr xs => exact absurd hi (h xs)
      | _ => rfl
  have hmem : (⟨"orderItems", "Invalid value"⟩ : FieldError) ∈ orderValidation lib body := by
    simp [orderValidation, customValidation, hitems]
  have hne : orderValidation lib body ≠ [] := List.ne_nil_of_mem hmem
  refine ⟨?_, hne, hmem, ?_⟩ <;> simp [sendOrderConfirmation, hne]

/-! ## Store failures -/

/-- In signup and login a rejected store call is answered 500. -/
theorem signup_login_store_failure (lib : Lib) (env : Env) (store : Store) :
    (∀ (body : SignupBody) (err : JsError), signupValidation lib body = [] →
        env.findOneError = some err →
        (signup lib env store body).response =
          ⟨500, .serverError "Server error during signup" err.message⟩) ∧
    (∀ (body : SignupBody) (err : JsError) (salt hashed : String),
        signupValidation lib body = [] →
        findOne lib env store body.email = .ok none → env.genSalt = .ok salt →
        bcryptHash env body.password salt = .ok hashed → env.saveError = some err →
        (signup lib env store body).response =
          ⟨500, .serverError "Server error during signup" err.message⟩) ∧
    (∀ (body : LoginBody) (err : JsError), env.findOneError = some err →
        (login lib env store body).response = ⟨500, .serverError "Login failed" err.message⟩) := by
  refine ⟨?_, ?_, ?_⟩
  · intro body err hv hf
    simp [signup, hv, findOne, hf, signupCatch]
  · intro body err salt hashed hv hf hs hh hsave
    simp [signup, hv, hf, hs, hh, saveNew, hsave, signupCatch]
  · intro body err hf
    simp [login, findOne, hf, loginCatch]

/-- C8 (the code departs from it): with a token that `jwt.verify` accepts for
the email of an unverified account, a rejected lookup and a rejected save are
both answered by `verifyEmail` with status 400 and the text "Invalid or expired
token.", where signup and login answer 500. -/
theorem verifyEmail_store_failure :
    (verifyEmail sampleLib lookupDown [annUnverified] "token-1h").response =
        ⟨400, .text "Invalid or expired token."⟩ ∧
    (verifyEmail sampleLib saveDown [annUnverified] "token-1h").response =
        ⟨400, .text "Invalid or expired token."⟩ ∧
    (login sampleLib lookupDown [annUnverified]
        ⟨.str "ann@x.com", .str "secret1"⟩).response.status = 500 := by
  decide

/-! ## The user name of an order -/

/-- For a string, the user name handed to the handler is the trimmed, escaped input. -/
theorem orderSanitize_userName (lib : Lib) (body : OrderBody) (s : String)
    (h : body.userName = .str s) :
    (orderSanitize lib body).userName = .str (htmlEscape (jsTrim s)) := by
  simp [orderSanitize, h, sanitization, stringify]

set_option maxRecDepth 100000 in
/-- C10 (the code departs from it): an order whose `userName` is three blanks
passes validation; the route responds 200 and makes two `sendMail` calls, and
the user name put into both bodies is the empty string. -/
theorem order_blank_userName :
    orderValidation sampleLib blankNameOrder = [] ∧
    (sendOrderConfirmation sampleLib sampleEnv blankNameOrder).response = ⟨200, .success⟩ ∧
    (sendOrderConfirmation sampleLib sampleEnv blankNameOrder).mails.length = 2 ∧
    jsString sampleLib (orderSanitize sampleLib blankNameOrder).userName = "" ∧
    (∀ m ∈ (sendOrderConfirmation sampleLib sampleEnv blankNameOrder).mails,
        "<p>Hello ,</p>".toList <:+: m.html.toList) := by
  decide

/-! ## Worked instances -/

/-- Ann logs in once verified: the lookup answers and the response is 200. -/
theorem login_contract_witness :
    sampleEnv.findOneError = none ∧
    (login sampleLib sampleEnv [annVerified]
        ⟨.str "ann@x.com", .str "secret1"⟩).response.status = 200 :=
  ⟨rfl, (login_contract sampleLib sampleEnv [annVerified] "ann@x.com" "secret1" rfl).1.2
    ⟨annVerified, by decide, rfl, rfl⟩⟩

/-- Ann redeems her token once; the same token again is answered "Email already verified". -/
theorem verifyEmail_once_witness :
    ([annUnverified].map (fun a => a.id)).Nodup ∧
    accountFor [annUnverified] "ann@x.com" = some annUnverified ∧
    annUnverified.isVerified = false ∧
    sampleEnv.findOneError = none ∧ sampleEnv.saveError = none ∧
    (verifyEmail sampleLib sampleEnv [annUnverified] "token-1h").response =
        ⟨200, .text "Email verified successfully. You can now log in."⟩ ∧
    (verifyEmail sampleLib sampleEnv
        (verifyEmail sampleLib sampleEnv [annUnverified] "token-1h").store
        "token-1h").response = ⟨400, .text "Email already verified"⟩ :=
  have h := verifyEmail_once sampleLib sampleEnv [annUnverified] "ann@x.com" "token-1h"
    annUnverified ⟨.str "ann@x.com"⟩ (by decide) (by decide) rfl rfl rfl rfl rfl
  ⟨by decide, by decide, rfl, rfl, rfl, h.1,
    (h.2.2.2 [] sampleEnv "token-1h" ⟨.str "ann@x.com"⟩ rfl rfl rfl).1⟩

/-- Ann signs up in an empty store. -/
theorem signup_success_witness :
    sampleLib.isLength 3 "Ann" = true ∧ sampleLib.isEmail "ann@x.com" = true ∧
    sampleLib.isLength 6 "secret1" = true ∧ accountFor [] "ann@x.com" = none ∧
    (signup sampleLib sampleEnv [] annSignup).response =
        ⟨201, .message "Verification email sent"⟩ ∧
    (signup sampleLib sampleEnv [] annSignup).store = [annUnverified] :=
  have h := signup_success sampleLib sampleEnv [] "Ann" "ann@x.com" "secret1" "salt"
    "salt$secret1" (by decide) (by decide) (by decide) rfl rfl rfl rfl rfl rfl
  ⟨by decide, by decide, by decide, rfl, h.1, h.2.1⟩

/-- Ann, verified, stays verified through a signup, a verification and a login. -/
theorem isVerified_stays_witness :
    [annVerified][0]? = some annVerified ∧ annVerified.isVerified = true ∧
    (runAll sampleLib [annVerified]
        [(sampleEnv, .signup annSignup), (sampleEnv, .verifyEmail "token-1h"),
         (sampleEnv, .login ⟨.str "ann@x.com", .str "secret1"⟩)])[0]? = some annVerified :=
  ⟨rfl, rfl, isVerified_stays sampleLib _ [annVerified] 0 annVerified rfl rfl⟩

/-- An expired token is answered with the expiry text whatever the store holds. -/
theorem verifyEmail_expired_witness :
    sampleEnv.jwtVerify "token-old" = .error ⟨"TokenExpiredError", "jwt expired"⟩ ∧
    (verifyEmail sampleLib sampleEnv [annUnverified] "token-old").response =
        ⟨400, .text "Verification link has expired. Please sign up again."⟩ :=
  ⟨rfl, (verifyEmail_expired sampleLib sampleEnv [annUnverified] "token-old"
    ⟨"TokenExpiredError", "jwt expired"⟩ rfl rfl).1⟩

/-- A second signup of Ann is answered "User already exists". -/
theorem signup_rejected_witness :
    signupValidation sampleLib annSignup = [] ∧
    findOne sampleLib sampleEnv [annUnverified] annSignup.email = .ok (some annUnverified) ∧
    (signup sampleLib sampleEnv [annUnverified] annSignup).response =
        ⟨400, .message "User already exists"⟩ :=
  ⟨by decide, rfl,
    (signup_rejected sampleLib sampleEnv [annUnverified] annSignup).2.2 (by decide)
      annUnverified rfl⟩

/-- Ann signs up while the mail transport is down: 500, and her account is stored. -/
theorem signup_mail_failure_witness :
    mailDown.sendMailError 0 = some ⟨"Error", "connection refused"⟩ ∧
    (signup sampleLib mailDown [] annSignup).response =
        ⟨500, .serverError "Server error during signup" "connection refused"⟩ ∧
    (signup sampleLib mailDown [] annSignup).store = [annUnverified] :=
  have h := signup_mail_failure sampleLib mailDown [] "Ann" "ann@x.com" "secret1" "salt"
    "salt$secret1" ⟨"Error", "connection refused"⟩ (by decide) (by decide) (by decide)
    rfl rfl rfl rfl rfl rfl
  ⟨rfl, h.1, h.2.1⟩

/-- An order with an empty item list is answered 400 and nothing is sent. -/
theorem order_without_items_witness :
    (sendOrderConfirmation sampleLib sampleEnv
        { blankNameOrder with orderItems := .arr [] }).response.status = 400 ∧
    (sendOrderConfirmation sampleLib sampleEnv
        { blankNameOrder with orderItems := .arr [] }).mails = [] :=
  have h := order_without_items sampleLib sampleEnv
    { blankNameOrder with orderItems := .arr [] } (Or.inl rfl)
  ⟨by rw [h.1], h.2.2.2⟩

end ECommerce
